import Mathlib

/-!
Verification of the PII-masking workflow engine
(`pii_masking/masking/services/masking_service.py`,
`pii_masking/masking/crud/connection.py`, `pii_masking/masking/schemas/mapping.py`,
`pii_masking/masking/models/mapping.py`) against its natural-language
specification.  Python values, the seed derivation, the per-cell masking loop,
the identity-column filtering, the pydantic creation schema, the orchestrator's
control flow and the connection probe are embedded shallowly; external
libraries (the Faker generator, database drivers and the DB session) appear as
explicit oracle structures whose outcomes are data.
-/

namespace PiiMasking

/-- A Python runtime value as the masking pipeline sees one: `None`, a string,
an integer, a boolean, or a dict (carried as its key/value pairs).  Cells read
from a database cursor and values returned by the generator library are drawn
from this type. -/
inductive PyValue where
  | none : PyValue
  | str : String → PyValue
  | int : Int → PyValue
  | bool : Bool → PyValue
  | dict : List (String × String) → PyValue
deriving DecidableEq, Repr

/-- A single ASCII apostrophe, used by Python's `str()` rendering of dicts. -/
def pyQuote : String := String.singleton (Char.ofNat 39)

/-- Python's `str()` of one dict entry: `'key': 'value'`. -/
def pyDictEntryStr (e : String × String) : String :=
  pyQuote ++ e.1 ++ pyQuote ++ ": " ++ pyQuote ++ e.2 ++ pyQuote

/-- Python's `str()` rendering of a dict of strings. -/
def pyDictStr (es : List (String × String)) : String :=
  "\x7b" ++ String.intercalate (", ") (es.map pyDictEntryStr) ++ "\x7d"

/-- Python's `str(v)`. -/
def pyStr : PyValue → String
  | PyValue.none => "None"
  | PyValue.str s => s
  | PyValue.int n => toString n
  | PyValue.bool b => if b then "True" else "False"
  | PyValue.dict es => pyDictStr es

/-- Python truthiness of a value (`bool(v)`): `None`, `""`, `0`, `False` and
the empty dict are falsy. -/
def pyTruthy : PyValue → Bool
  | PyValue.none => false
  | PyValue.str s => s ≠ ""
  | PyValue.int n => n ≠ 0
  | PyValue.bool b => b
  | PyValue.dict es => es ≠ []

/-- Python's `isinstance(v, str)`. -/
def pyIsStr : PyValue → Bool
  | PyValue.str _ => true
  | _ => false

/-- Python's `isinstance(v, dict)`. -/
def pyIsDict : PyValue → Bool
  | PyValue.dict _ => true
  | _ => false

/-- UTF-8 bytes of one character (`ch.encode('utf-8')`). -/
def charUtf8 (c : Char) : List Nat :=
  let n := c.toNat
  if n < 128 then [n]
  else if n < 2048 then [192 + (n >>> 6), 128 + (n % 64)]
  else if n < 65536 then [224 + (n >>> 12), 128 + ((n >>> 6) % 64), 128 + (n % 64)]
  else [240 + (n >>> 18), 128 + ((n >>> 12) % 64), 128 + ((n >>> 6) % 64), 128 + (n % 64)]

/-- UTF-8 bytes of a string (`text.encode('utf-8')`). -/
def utf8Encode (s : String) : List Nat :=
  (s.data.map charUtf8).flatten

/-! ### SHA-256 (FIPS 180-4), as invoked by Python's `hashlib.sha256` -/

/-- Truncation to a 32-bit word. -/
def w32 (x : Nat) : Nat := x % 4294967296

/-- Right rotation of a 32-bit word. -/
def rotr32 (n x : Nat) : Nat := w32 ((x >>> n) ||| (x <<< (32 - n)))

/-- SHA-256 Σ₀. -/
def bsig0 (x : Nat) : Nat := rotr32 2 x ^^^ rotr32 13 x ^^^ rotr32 22 x

/-- SHA-256 Σ₁. -/
def bsig1 (x : Nat) : Nat := rotr32 6 x ^^^ rotr32 11 x ^^^ rotr32 25 x

/-- SHA-256 σ₀. -/
def ssig0 (x : Nat) : Nat := rotr32 7 x ^^^ rotr32 18 x ^^^ (x >>> 3)

/-- SHA-256 σ₁. -/
def ssig1 (x : Nat) : Nat := rotr32 17 x ^^^ rotr32 19 x ^^^ (x >>> 10)

/-- SHA-256 Ch, with ¬x as xor against the all-ones word. -/
def shaCh (x y z : Nat) : Nat := (x &&& y) ^^^ ((4294967295 ^^^ x) &&& z)

/-- SHA-256 Maj. -/
def shaMaj (x y z : Nat) : Nat := (x &&& y) ^^^ (x &&& z) ^^^ (y &&& z)

/-- The 64 SHA-256 round constants (FIPS 180-4 §4.2.2), written in decimal. -/
def sha256K : List Nat :=
  [1116352408, 1899447441, 3049323471, 3921009573, 961987163,
   1508970993, 2453635748, 2870763221, 3624381080, 310598401,
   607225278, 1426881987, 1925078388, 2162078206, 2614888103,
   3248222580, 3835390401, 4022224774, 264347078, 604807628,
   770255983, 1249150122, 1555081692, 1996064986, 2554220882,
   2821834349, 2952996808, 3210313671, 3336571891, 3584528711,
   113926993, 338241895, 666307205, 773529912, 1294757372,
   1396182291, 1695183700, 1986661051, 2177026350, 2456956037,
   2730485921, 2820302411, 3259730800, 3345764771, 3516065817,
   3600352804, 4094571909, 275423344, 430227734, 506948616,
   659060556, 883997877, 958139571, 1322822218, 1537002063,
   1747873779, 1955562222, 2024104815, 2227730452, 2361852424,
   2428436474, 2756734187, 3204031479, 3329325298]

/-- The SHA-256 working state (eight 32-bit words). -/
structure SHAState where
  a : Nat
  b : Nat
  c : Nat
  d : Nat
  e : Nat
  f : Nat
  g : Nat
  h : Nat
deriving Repr

/-- The SHA-256 initial hash value (FIPS 180-4 §5.3.3), written in decimal. -/
def sha256H0 : SHAState :=
  ⟨1779033703, 3144134277, 1013904242, 2773480762,
   1359893119, 2600822924, 528734635, 1541459225⟩

/-- Message padding: append `0x80`, zeros to 56 mod 64, then the bit length as
eight big-endian bytes. -/
def sha256Pad (msg : List Nat) : List Nat :=
  let l := msg.length
  let k := (64 + 56 - ((l + 1) % 64)) % 64
  let lenBytes := (List.range 8).map (fun i => ((8 * l) >>> (8 * (7 - i))) % 256)
  msg ++ [128] ++ List.replicate k 0 ++ lenBytes

/-- Big-endian grouping of bytes into 32-bit words. -/
def bytesToWords : List Nat → List Nat
  | b0 :: b1 :: b2 :: b3 :: rest =>
      (((b0 * 256 + b1) * 256 + b2) * 256 + b3) :: bytesToWords rest
  | _ => []

/-- Extend a 16-word block to the 64-word message schedule (`n` words left to
append). -/
def sha256Extend : Nat → List Nat → List Nat
  | 0, ws => ws
  | n + 1, ws =>
      let t := ws.length
      sha256Extend n
        (ws ++ [w32 (ssig1 (ws.getD (t - 2) 0) + ws.getD (t - 7) 0 +
                     ssig0 (ws.getD (t - 15) 0) + ws.getD (t - 16) 0)])

/-- One SHA-256 compression round, consuming a `(constant, scheduled word)`
pair. -/
def sha256Round (st : SHAState) (kw : Nat × Nat) : SHAState :=
  let t1 := w32 (st.h + bsig1 st.e + shaCh st.e st.f st.g + kw.1 + kw.2)
  let t2 := w32 (bsig0 st.a + shaMaj st.a st.b st.c)
  ⟨w32 (t1 + t2), st.a, st.b, st.c, w32 (st.d + t1), st.e, st.f, st.g⟩

/-- Compress one 16-word block into the running hash state. -/
def sha256Compress (hs : SHAState) (block : List Nat) : SHAState :=
  let ws := sha256Extend 48 block
  let st := (sha256K.zip ws).foldl sha256Round hs
  ⟨w32 (hs.a + st.a), w32 (hs.b + st.b), w32 (hs.c + st.c), w32 (hs.d + st.d),
   w32 (hs.e + st.e), w32 (hs.f + st.f), w32 (hs.g + st.g), w32 (hs.h + st.h)⟩

/-- Process a padded message (as words) 16 words at a time. -/
def sha256Blocks (hs : SHAState) (ws : List Nat) : SHAState :=
  if _h : ws = [] then hs
  else sha256Blocks (sha256Compress hs (ws.take 16)) (ws.drop 16)
termination_by ws.length
decreasing_by
  simp only [List.length_drop]
  have : 0 < ws.length := List.length_pos.mpr _h
  omega

/-- The SHA-256 digest of a byte string, read as one 256-bit big-endian
integer — exactly Python's `int(hashlib.sha256(b).hexdigest(), 16)`. -/
def sha256Nat (msg : List Nat) : Nat :=
  let s := sha256Blocks sha256H0 (bytesToWords (sha256Pad msg))
  ((((((s.a * 4294967296 + s.b) * 4294967296 + s.c) * 4294967296 + s.d)
      * 4294967296 + s.e) * 4294967296 + s.f) * 4294967296 + s.g)
      * 4294967296 + s.h

/-! ### `hash_seed` (masking_service.py lines 74–78) -/

/-- The string actually hashed by `hash_seed`: the body of
`if not text or not isinstance(text, str): text = str(text) if text is not None else ""`. -/
def hash_seed_text (text : PyValue) : String :=
  if pyTruthy text && pyIsStr text then pyStr text
  else if text = PyValue.none then "" else pyStr text

/-- `hash_seed(text)`: SHA-256 over the UTF-8 bytes of the (string form of
the) input, reduced modulo `10 ** 8`. -/
def hash_seed (text : PyValue) : Nat :=
  sha256Nat (utf8Encode (hash_seed_text text)) % (10 ^ 8)

/-! ### The deterministic Faker wrapper (masking_service.py lines 80–132)

The Faker package is an external generator library; the spec treats it as a
pluggable collaborator whose only required property is keyed, deterministic
generation: after `seed_instance(s)` an instance's state is a function of `s`
alone.  `FakerLib` is that collaborator as data: `initState` is the state a
fresh unseeded `Faker()` gets from ambient process entropy (the "world"),
`seedState` is the state `seed_instance` resets an instance to, and `method`
invokes the named category method on an instance in a given state, returning
the produced value and successor state, or raising. -/

/-- The external Faker library as an oracle. -/
structure FakerLib where
  initState : Nat → Nat
  seedState : Nat → Nat
  method : String → Nat → Except String (PyValue × Nat)

/-- `Faker()`: a fresh instance's state, drawn from the ambient world. -/
def FakerLib.newInstance (lib : FakerLib) (world : Nat) : Nat :=
  lib.initState world

/-- `fake.seed_instance(seed_value)`: the prior instance state is discarded
and replaced by a function of the seed alone. -/
def FakerLib.seed_instance (lib : FakerLib) (_state : Nat) (seed_value : Nat) : Nat :=
  lib.seedState seed_value

/-- `get_deterministic_faker(seed_value)`: `fake = Faker()` then
`fake.seed_instance(seed_value)` — the state of the returned instance. -/
def get_deterministic_faker (lib : FakerLib) (world : Nat) (seed_value : Nat) : Nat :=
  lib.seed_instance (lib.newInstance world) seed_value

/-- The 36 keys of `DataMaskingService.pii_mapping`. -/
def pii_mapping_keys : List String :=
  ["address", "city", "city_prefix", "city_suffix", "company", "company_email",
   "company_suffix", "country", "country_calling_code", "country_code",
   "date_of_birth", "email", "first_name", "job", "last_name", "name",
   "passport_dob", "passport_full", "passport_gender", "passport_number",
   "passport_owner", "phone_number", "postalcode", "postcode", "profile",
   "secondary_address", "simple_profile", "ssn", "state", "state_abbr",
   "street_address", "street_name", "street_suffix", "zipcode",
   "zipcode_in_state", "zipcode_plus4"]

/-- The pii_mapping entries whose lambda wraps the generator's return value in
`str(...)` (date_of_birth, passport_dob, passport_full, passport_owner,
profile, simple_profile). -/
def str_wrapped_keys : List String :=
  ["date_of_birth", "passport_dob", "passport_full", "passport_owner",
   "profile", "simple_profile"]

/-- The lambda stored under key `a` in `self.pii_mapping`, applied to `val`:
`get_deterministic_faker(hash_seed(val)).<a>()`, with the six listed entries
additionally wrapped in `str(...)`.  An exception from the generator is
surfaced as `Except.error`. -/
def pii_mapping_apply (lib : FakerLib) (world : Nat) (a : String) (val : String) :
    Except String PyValue :=
  match lib.method a (get_deterministic_faker lib world (hash_seed (PyValue.str val))) with
  | Except.error e => Except.error e
  | Except.ok (v, _) =>
      Except.ok (if str_wrapped_keys.contains a then PyValue.str (pyStr v) else v)

/-! ### `_mask_rows` (masking_service.py lines 663–698) -/

/-- A column mapping row (models.mapping.ColumnMapping) as `_mask_rows`
consumes one. -/
structure ColumnMapping where
  source_column : String
  destination_column : String
  is_pii : Bool
  pii_attribute : Option String
deriving DecidableEq, Repr

/-- A table mapping with its ordered column mappings. -/
structure TableMappingRec where
  source_table : String
  destination_table : String
  column_mappings : List ColumnMapping
deriving Repr

/-- Python truthiness of `col_mapping.pii_attribute` (None and `""` are
falsy). -/
def optStrTruthy : Option String → Bool
  | Option.none => false
  | Option.some s => s ≠ ""

/-- The guard `col_mapping.is_pii and col_mapping.pii_attribute` followed by
`col_mapping.pii_attribute in self.pii_mapping`: only then does the per-cell
try block run at all. -/
def inMaskingBranch (cm : ColumnMapping) : Bool :=
  cm.is_pii && optStrTruthy cm.pii_attribute &&
    pii_mapping_keys.contains (cm.pii_attribute.getD "")

/-- A character Python's `str.strip()` removes. -/
def isPySpace (c : Char) : Bool :=
  c.toNat = 32 || c.toNat = 9 || c.toNat = 10 || c.toNat = 11 ||
    c.toNat = 12 || c.toNat = 13

/-- Python's `s.strip()`: leading and trailing whitespace removed. -/
def pyStrip (s : String) : String :=
  String.mk (((s.data.dropWhile isPySpace).reverse.dropWhile isPySpace).reverse)

/-- The blank test `masked_row[i] is None or str(masked_row[i]).strip() == ""`. -/
def isBlankVal (cell : PyValue) : Bool :=
  cell = PyValue.none || pyStrip (pyStr cell) = ""

/-- One column's step of the `_mask_rows` inner loop on an in-range cell:
`Option.some v` means the assignment `masked_row[i] = v` happened, `Option.none`
means the cell is left untouched (branch not taken, blank skip, or a caught
per-cell exception); the second component is the warning lines logged. -/
def maskCellStep (lib : FakerLib) (world : Nat) (cm : ColumnMapping) (cell : PyValue) :
    Option PyValue × List String :=
  if inMaskingBranch cm then
    if isBlankVal cell then (Option.none, [])
    else
      match pii_mapping_apply lib world (cm.pii_attribute.getD "") (pyStr cell) with
      | Except.error e =>
          (Option.none, ["Failed to mask column " ++ cm.source_column ++ ": " ++ e])
      | Except.ok mv =>
          (Option.some (if pyIsDict mv then PyValue.str (pyStr mv) else mv), [])
  else (Option.none, [])

/-- The value a cell holds after its column's step (the original when no
assignment occurred). -/
def mask_cell (lib : FakerLib) (world : Nat) (cm : ColumnMapping) (cell : PyValue) :
    PyValue × List String :=
  (((maskCellStep lib world cm cell).1).getD cell, (maskCellStep lib world cm cell).2)

/-- The warning logged when `masked_row[i]` raises IndexError inside the
per-cell try block. -/
def indexErrorWarning (cm : ColumnMapping) : String :=
  "Failed to mask column " ++ cm.source_column ++ ": list index out of range"

/-- The inner loop `for i, col_mapping in enumerate(table_mapping.column_mappings)`
over one (mutable) row, carried at position `i` with accumulated warnings.  A
read of `masked_row[i]` happens only inside the masking branch; out of range it
raises IndexError, which the per-cell handler catches and logs. -/
def maskRowAux (lib : FakerLib) (world : Nat) :
    List ColumnMapping → Nat → List PyValue → List String → List PyValue × List String
  | [], _, mrow, logs => (mrow, logs)
  | cm :: rest, i, mrow, logs =>
      if inMaskingBranch cm then
        if h : i < mrow.length then
          match maskCellStep lib world cm mrow[i] with
          | (Option.some v, w) => maskRowAux lib world rest (i + 1) (mrow.set i v) (logs ++ w)
          | (Option.none, w) => maskRowAux lib world rest (i + 1) mrow (logs ++ w)
        else maskRowAux lib world rest (i + 1) mrow (logs ++ [indexErrorWarning cm])
      else maskRowAux lib world rest (i + 1) mrow logs

/-- `masked_row = list(row)` followed by the per-column loop. -/
def mask_row (lib : FakerLib) (world : Nat) (tm : TableMappingRec) (row : List PyValue) :
    List PyValue × List String :=
  maskRowAux lib world tm.column_mappings 0 row []

/-- `_mask_rows(rows, table_mapping)`: one masked row per input row, with all
warning lines collected in order. -/
def mask_rows (lib : FakerLib) (world : Nat) (tm : TableMappingRec)
    (rows : List (List PyValue)) : List (List PyValue) × List String :=
  rows.foldl
    (fun acc row =>
      let r := mask_row lib world tm row
      (acc.1 ++ [r.1], acc.2 ++ r.2))
    ([], [])

/-! ### Identity-column filtering in `_insert_masked_data_sync`
(masking_service.py lines 792–917); the same comprehensions appear verbatim in
both the SQL Server and the PostgreSQL branch. -/

/-- `[col for col in columns if col not in identity_columns]`. -/
def filtered_columns (columns identity_columns : List String) : List String :=
  columns.filter (fun col => !(identity_columns.contains col))

/-- `[i for i, col in enumerate(columns) if col in identity_columns]`, with the
enumeration counter carried explicitly. -/
def identity_indices_from (columns identity_columns : List String) (i : Nat) : List Nat :=
  match columns with
  | [] => []
  | col :: rest =>
      if identity_columns.contains col then
        i :: identity_indices_from rest identity_columns (i + 1)
      else identity_indices_from rest identity_columns (i + 1)

/-- The index positions of the identity columns in the declared column order. -/
def identity_indices (columns identity_columns : List String) : List Nat :=
  identity_indices_from columns identity_columns 0

/-- `[row[i] for i in range(len(row)) if i not in identity_indices]`, with the
range counter carried explicitly. -/
def filtered_row_from (row : List PyValue) (idxs : List Nat) (i : Nat) : List PyValue :=
  match row with
  | [] => []
  | v :: rest =>
      if idxs.contains i then filtered_row_from rest idxs (i + 1)
      else v :: filtered_row_from rest idxs (i + 1)

/-- One data row with the values at the identity index positions removed. -/
def filtered_row (row : List PyValue) (idxs : List Nat) : List PyValue :=
  filtered_row_from row idxs 0

/-- The column/value filtering of `_insert_masked_data_sync` applied to a page:
the insert column list and the filtered value rows. -/
def insert_filtering (columns identity_columns : List String)
    (data : List (List PyValue)) : List String × List (List PyValue) :=
  (filtered_columns columns identity_columns,
   data.map (fun row => filtered_row row (identity_indices columns identity_columns)))

/-! ### Column-mapping creation (schemas/mapping.py lines 6–14,
models/mapping.py) -/

/-- `PII_ATTRIBUTES` from models/mapping.py — the predefined category list the
UI and the preview endpoint validate against. -/
def PII_ATTRIBUTES : List String :=
  ["address", "city", "city_prefix", "city_suffix", "company", "company_email",
   "company_suffix", "country", "country_calling_code", "country_code",
   "date_of_birth", "email", "first_name", "last_name", "name", "passport_dob",
   "passport_full", "passport_gender", "passport_number", "passport_owner",
   "phone_number", "postalcode", "postcode", "profile", "secondary_address",
   "simple_profile", "ssn", "state", "state_abbr", "street_address",
   "street_name", "street_suffix", "zipcode", "zipcode_in_state", "zipcode_plus4"]

/-- The payload of a `ColumnMappingCreate` request after pydantic type
coercion: both names, the PII flag (defaulted to `False` when omitted) and the
optional PII category. -/
structure ColumnMappingCreateInput where
  source_column : String
  destination_column : String
  is_pii : Bool
  pii_attribute : Option String
deriving DecidableEq, Repr

/-- Validation performed by the `ColumnMappingCreate` pydantic schema: the only
declared constraints are `Field(..., min_length=1)` on the two name fields;
`pii_attribute` carries no constraint and no validator relates it to `is_pii`
or to `PII_ATTRIBUTES`. -/
def ColumnMappingCreate_validate (inp : ColumnMappingCreateInput) :
    Except String ColumnMapping :=
  if inp.source_column.length < 1 then
    Except.error ("source_column: String should have at least 1 character")
  else if inp.destination_column.length < 1 then
    Except.error ("destination_column: String should have at least 1 character")
  else
    Except.ok ⟨inp.source_column, inp.destination_column, inp.is_pii, inp.pii_attribute⟩

/-- Python's `sub in s` on strings. -/
def strContains (s sub : String) : Bool :=
  (s.splitOn sub).length ≠ 1

/-- Python truthiness of an optional port number (`if port:`). -/
def optNatTruthy : Option Nat → Bool
  | Option.none => false
  | Option.some p => p ≠ 0

/-! ### The orchestrator `execute_workflow` (masking_service.py lines 134–283)

The DB session, the CRUD layer and the table processor are external
collaborators; `OrchestratorEnv` carries their outcomes as data.  A call to
`update_workflow_execution` either persists a record (appended to the write
log) or raises; `update_ok` fixes which, uniformly for the run.  The progress
writes `_process_table_mapping` performs internally through
`_update_logs_sync` are abstracted into its oracle outcome. -/

/-- A stored connection row as `execute_workflow` reads one. -/
structure ConnRecord where
  connection_type : String
  server : String
  database : String
  username : String
  password_encrypted : String
  port : Option Nat

/-- A workflow row with its table mappings. -/
structure WorkflowRec where
  name : String
  user_id : Nat
  source_connection_id : Nat
  destination_connection_id : Nat
  table_mappings : List TableMappingRec

/-- A workflow-execution row (only its id matters to the control flow). -/
structure ExecutionRec where
  id : Nat
deriving DecidableEq, Repr

/-- The `WorkflowStatus` enumeration values `execute_workflow` writes. -/
inductive WStatus where
  | running : WStatus
  | completed : WStatus
  | failed : WStatus
deriving DecidableEq, Repr

/-- One persisted call to `update_workflow_execution`. -/
structure ExecWrite where
  execution_id : Nat
  status : WStatus
  error_message : Option String
  records_processed : Option Nat
  execution_logs : List String
deriving DecidableEq, Repr

/-- The collaborators of one `execute_workflow` invocation, as oracles. -/
structure OrchestratorEnv where
  pyodbc_available : Bool
  psycopg2_available : Bool
  pyodbc_drivers : List String
  create_workflow_execution : ExecutionRec
  get_workflow_execution_by_id : Nat → Option ExecutionRec
  get_workflow : Nat → Option WorkflowRec
  get_connection : Nat → Option ConnRecord
  decrypt_password : String → Except String String
  update_ok : Bool
  process_table_mapping : TableMappingRec → Except String Nat

/-- The error message raised when an `update_workflow_execution` call fails
(the DB layer's exception text, fixed in this model). -/
def updateFailedMsg : String := "Database error during execution update"

/-- `_get_best_odbc_driver`. -/
def get_best_odbc_driver (env : OrchestratorEnv) : Except String String :=
  if !env.pyodbc_available then Except.error ("pyodbc is not available")
  else
    match (["ODBC Driver 18 for SQL Server", "ODBC Driver 17 for SQL Server",
            "SQL Server"] : List String).find? (fun d => env.pyodbc_drivers.contains d) with
    | Option.some d => Except.ok d
    | Option.none =>
        Except.error ("No compatible SQL Server ODBC driver found. Available drivers: "
          ++ String.intercalate (", ") env.pyodbc_drivers)

/-- `_build_connection_string`. -/
def build_connection_string (env : OrchestratorEnv) (connection_type server database
    username password : String) (port : Option Nat) : Except String String :=
  if connection_type = "azure_sql" || connection_type = "sql_server" then
    match get_best_odbc_driver env with
    | Except.error e => Except.error e
    | Except.ok drv =>
        let s := "DRIVER=\x7b" ++ drv ++ "\x7d;SERVER=" ++ server ++ ";DATABASE="
          ++ (if database = "" then "master" else database)
          ++ ";UID=" ++ username ++ ";PWD=" ++ password
        let s := if connection_type = "azure_sql" || strContains drv ("18") then
            s ++ ";Encrypt=yes;TrustServerCertificate=yes"
          else s
        let s := if optNatTruthy port then
            s.replace ("SERVER=" ++ server ++ ";")
              ("SERVER=" ++ server ++ "," ++ toString (port.getD 0) ++ ";")
          else s
        Except.ok s
  else if connection_type = "postgresql" then
    let s := "postgresql://" ++ username ++ ":" ++ password ++ "@" ++ server
    let s := if optNatTruthy port then s ++ ":" ++ toString (port.getD 0) else s
    Except.ok (s ++ "/" ++ (if database = "" then "postgres" else database))
  else Except.error ("Unsupported connection type: " ++ connection_type)

/-- The pre-try resolution of the execution record: create one when no
`execution_id` was passed, otherwise look it up and raise when absent. -/
def resolve_execution (env : OrchestratorEnv) (execution_id : Option Nat) :
    Except String ExecutionRec :=
  match execution_id with
  | Option.none => Except.ok env.create_workflow_execution
  | Option.some eid =>
      match env.get_workflow_execution_by_id eid with
      | Option.some ex => Except.ok ex
      | Option.none => Except.error ("Execution " ++ toString eid ++ " not found")

/-- The `for idx, table_mapping in enumerate(workflow.table_mappings)` loop:
log lines, running total, and the first processor error if any. -/
def processTables (env : OrchestratorEnv) :
    List TableMappingRec → List String → Nat → List String × Nat × Option String
  | [], logs, total => (logs, total, Option.none)
  | tm :: rest, logs, total =>
      let logs1 := logs ++ ["Processing table " ++ tm.source_table ++ "..."]
      match env.process_table_mapping tm with
      | Except.error e => (logs1, total, Option.some e)
      | Except.ok n =>
          processTables env rest
            (logs1 ++ ["Processed table " ++ tm.source_table ++ ": "
              ++ toString n ++ " records"])
            (total + n)

/-- The body of `execute_workflow`'s `try:` block — everything between
obtaining the execution record and the `except` handler.  Returns the
persisted writes, the accumulated `execution_logs`, and the escaping
exception's message if one was raised. -/
def runTryBody (env : OrchestratorEnv) (execution : ExecutionRec)
    (workflow_id user_id : Nat) : List ExecWrite × List String × Option String :=
  match env.get_workflow workflow_id with
  | Option.none => ([], [], Option.some ("Workflow " ++ toString workflow_id ++ " not found"))
  | Option.some wf =>
      if wf.user_id ≠ user_id then
        ([], [], Option.some ("Unauthorized to execute this workflow"))
      else
        let logs1 := ["Workflow execution started for " ++ pyQuote ++ wf.name ++ pyQuote]
        if !env.update_ok then ([], logs1, Option.some updateFailedMsg)
        else
          let w1 := [ExecWrite.mk execution.id WStatus.running Option.none Option.none logs1]
          match env.get_connection wf.source_connection_id,
                env.get_connection wf.destination_connection_id with
          | Option.some sc, Option.some dc =>
              match env.decrypt_password sc.password_encrypted,
                    env.decrypt_password dc.password_encrypted with
              | Except.error e, _ =>
                  (w1, logs1, Option.some ("Failed to decrypt connection passwords. Connections may have been created with a different encryption key. Error: " ++ e))
              | _, Except.error e =>
                  (w1, logs1, Option.some ("Failed to decrypt connection passwords. Connections may have been created with a different encryption key. Error: " ++ e))
              | Except.ok spw, Except.ok dpw =>
                  match build_connection_string env sc.connection_type sc.server
                          sc.database sc.username spw sc.port,
                        build_connection_string env dc.connection_type dc.server
                          dc.database dc.username dpw dc.port with
                  | Except.error e, _ => (w1, logs1, Option.some e)
                  | _, Except.error e => (w1, logs1, Option.some e)
                  | Except.ok _, Except.ok _ =>
                      let logs2 := logs1 ++ ["Database connections established successfully"]
                      let w2 := w1 ++ [ExecWrite.mk execution.id WStatus.running
                        Option.none Option.none logs2]
                      let logs3 := logs2 ++ ["Starting data masking for "
                        ++ toString wf.table_mappings.length ++ " table(s)"]
                      let w3 := w2 ++ [ExecWrite.mk execution.id WStatus.running
                        Option.none Option.none logs3]
                      match processTables env wf.table_mappings logs3 0 with
                      | (logs4, _, Option.some e) => (w3, logs4, Option.some e)
                      | (logs4, total, Option.none) =>
                          let logs5 := logs4 ++ ["Workflow completed successfully. Total records: " ++ toString total]
                          (w3 ++ [ExecWrite.mk execution.id WStatus.completed
                            Option.none (Option.some total) logs5], logs5, Option.none)
          | _, _ => (w1, logs1, Option.some ("Source or destination connection not found"))

/-- The module-level driver-availability check's error text. -/
def noDriversMsg : String :=
  "No database drivers installed. Please install pyodbc for SQL Server or psycopg2 for PostgreSQL."

/-- `DataMaskingService.execute_workflow(db, workflow_id, user_id, execution_id)`:
the returned/raised outcome together with every `update_workflow_execution`
write persisted during the call, in order.  The driver check and the
execution-record resolution precede the `try:`; the `except` handler appends
the failure log line and attempts one FAILED write (itself guarded by a
nested try) before re-raising. -/
def execute_workflow (env : OrchestratorEnv) (workflow_id user_id : Nat)
    (execution_id : Option Nat) : Except String ExecutionRec × List ExecWrite :=
  if !env.pyodbc_available && !env.psycopg2_available then
    (Except.error noDriversMsg, [])
  else
    match resolve_execution env execution_id with
    | Except.error e => (Except.error e, [])
    | Except.ok execution =>
        match runTryBody env execution workflow_id user_id with
        | (writes, _, Option.none) => (Except.ok execution, writes)
        | (writes, logs, Option.some e) =>
            let failLogs := logs ++ ["Workflow failed: " ++ e]
            let writes' := if env.update_ok then
                writes ++ [ExecWrite.mk execution.id WStatus.failed
                  (Option.some e) Option.none failLogs]
              else writes
            (Except.error e, writes')

/-! ### `test_connection` (crud/connection.py lines 607–720)

The parameter dictionary is modelled with one optional field per key the
function reads; a `dict[key]` subscript on a missing key raises `KeyError`.
The asyncpg and pyodbc drivers are oracles.  Inside `test_sync`, only
`pyodbc.Error` is caught locally; any other exception crosses into the outer
handler, which catches everything raised after the `connection_type`
subscript — that subscript alone sits before the `try:`. -/

/-- The dictionary passed to `test_connection`. -/
structure ConnectionParams where
  connection_type : Option String
  server : Option String
  port : Option Nat
  database : Option String
  username : Option String
  password : Option String

/-- `params[key]`: the value, or a raised `KeyError`. -/
def dictGet {α : Type} (v : Option α) (key : String) : Except String α :=
  match v with
  | Option.some x => Except.ok x
  | Option.none => Except.error ("KeyError: " ++ key)

/-- An open asyncpg connection: the outcome of `fetchval('SELECT 1')` and
whether `close()` succeeds. -/
structure PgConn where
  fetchval_result : Except String PyValue
  close_ok : Bool

/-- The outcome of the pyodbc connect/execute/fetch sequence in `test_sync`:
success, a raised `pyodbc.Error` (caught inside `test_sync`), or any other
exception (propagating out of `test_sync` into the outer handler). -/
inductive OdbcResult where
  | success : OdbcResult
  | pyodbcError : String → OdbcResult
  | otherError : String → OdbcResult

/-- The drivers available to `test_connection`, as oracles. -/
structure TestConnEnv where
  asyncpg_available : Bool
  pyodbc_available : Bool
  pyodbc_drivers : List String
  asyncpg_connect : String → Nat → String → String → String → Except String PgConn
  pyodbc_connect : String → OdbcResult

/-- The body of `test_connection`'s `try:` block for a given connection type:
`Except.error` is an exception reaching the outer handler. -/
def test_connection_inner (env : TestConnEnv) (connection_type : String)
    (params : ConnectionParams) : Except String (Bool × String) :=
  if connection_type = "postgresql" then
    if !env.asyncpg_available then
      Except.ok (false, "asyncpg is not installed. Please install it with: pip install asyncpg")
    else
      let port := params.port.getD 5432
      let database := params.database.getD ("postgres")
      match dictGet params.server ("server") with
      | Except.error e => Except.error e
      | Except.ok server =>
          match dictGet params.username ("username") with
          | Except.error e => Except.error e
          | Except.ok user =>
              match dictGet params.password ("password") with
              | Except.error e => Except.error e
              | Except.ok pw =>
                  match env.asyncpg_connect server port database user pw with
                  | Except.error e => Except.error e
                  | Except.ok conn =>
                      match conn.fetchval_result with
                      | Except.error e => Except.error e
                      | Except.ok result =>
                          if !conn.close_ok then Except.error ("connection close failed")
                          else if result = PyValue.int 1 then
                            Except.ok (true, "PostgreSQL connection successful")
                          else
                            Except.ok (false, "PostgreSQL connection test failed")
  else if connection_type = "azure_sql" || connection_type = "sql_server" then
    if !env.pyodbc_available then
      Except.ok (false, "pyodbc is not installed. Please install Microsoft C++ Build Tools and pyodbc.")
    else
      match (["ODBC Driver 18 for SQL Server", "ODBC Driver 17 for SQL Server",
              "SQL Server"] : List String).find? (fun d => env.pyodbc_drivers.contains d) with
      | Option.none =>
          Except.ok (false, "No compatible SQL Server ODBC driver found. Available drivers: "
            ++ String.intercalate (", ") env.pyodbc_drivers)
      | Option.some drv =>
          match dictGet params.server ("server") with
          | Except.error e => Except.error e
          | Except.ok server =>
              let server_with_port :=
                if optNatTruthy params.port && !strContains server (",")
                    && !strContains server (":") then
                  server ++ "," ++ toString (params.port.getD 0)
                else server
              match dictGet params.username ("username") with
              | Except.error e => Except.error e
              | Except.ok user =>
                  match dictGet params.password ("password") with
                  | Except.error e => Except.error e
                  | Except.ok pw =>
                      let conn_str := "DRIVER=\x7b" ++ drv ++ "\x7d;SERVER="
                        ++ server_with_port ++ ";DATABASE=" ++ params.database.getD ("master")
                        ++ ";UID=" ++ user ++ ";PWD=" ++ pw
                        ++ ";Connection Timeout=30;Command Timeout=30"
                      let conn_str := if connection_type = "azure_sql"
                          || strContains drv ("18") then
                          conn_str ++ ";Encrypt=yes;TrustServerCertificate=yes"
                        else conn_str
                      match env.pyodbc_connect conn_str with
                      | OdbcResult.success =>
                          Except.ok (true, "SQL Server connection successful using " ++ drv)
                      | OdbcResult.pyodbcError em =>
                          let low := em.toLower
                          if strContains low ("timeout") then
                            Except.ok (false, "Connection timeout: " ++ em
                              ++ ". Check if server " ++ server_with_port
                              ++ " is accessible and SQL Server is running.")
                          else if strContains low ("login") then
                            Except.ok (false, "Authentication failed: " ++ em
                              ++ ". Check username and password.")
                          else if strContains low ("network") || strContains low ("tcp") then
                            Except.ok (false, "Network error: " ++ em
                              ++ ". Check if server " ++ server_with_port
                              ++ " is reachable and port is open.")
                          else Except.ok (false, "Connection failed: " ++ em)
                      | OdbcResult.otherError em => Except.error em
  else
    Except.ok (false, "Unsupported connection type: " ++ connection_type
      ++ ". Supported types: postgresql, azure_sql, sql_server")

/-- `test_connection(connection_params)`: the `connection_type` subscript runs
before the `try:`; everything after it is wrapped by
`except Exception as e: return False, f"Connection failed: ..."`. -/
def test_connection (env : TestConnEnv) (params : ConnectionParams) :
    Except String (Bool × String) :=
  match dictGet params.connection_type ("connection_type") with
  | Except.error e => Except.error e
  | Except.ok ct =>
      match test_connection_inner env ct params with
      | Except.ok r => Except.ok r
      | Except.error e => Except.ok (false, "Connection failed: " ++ e)

/-! ### Concrete oracle instances used to evaluate the embedding -/

/-- A generator library whose every method returns a fixed value and leaves
the instance state unchanged. -/
def constFakerLib (out : PyValue) : FakerLib :=
  ⟨id, id, fun _ s => Except.ok (out, s)⟩

/-- A generator library whose every method raises. -/
def errFakerLib (msg : String) : FakerLib :=
  ⟨id, id, fun _ _ => Except.error msg⟩

/-- An orchestrator environment with no database drivers installed. -/
def envNoDrivers : OrchestratorEnv :=
  ⟨false, false, [], ⟨1⟩, fun _ => Option.some ⟨1⟩, fun _ => Option.none,
   fun _ => Option.none, fun _ => Except.error ("bad key"), true,
   fun _ => Except.error ("not reached")⟩

/-- An orchestrator environment with pyodbc present, execution id 7 stored,
all updates succeeding, but no workflow rows. -/
def envMissingWorkflow : OrchestratorEnv :=
  ⟨true, false, ["SQL Server"], ⟨1⟩, fun _ => Option.some ⟨7⟩, fun _ => Option.none,
   fun _ => Option.none, fun _ => Except.error ("bad key"), true,
   fun _ => Except.error ("not reached")⟩

/-- A probe environment with no drivers importable. -/
def trivTestEnv : TestConnEnv :=
  ⟨false, false, [], fun _ _ _ _ _ => Except.error ("not reached"),
   fun _ => OdbcResult.otherError ("not reached")⟩

/-- An empty parameter dictionary. -/
def emptyParams : ConnectionParams :=
  ⟨Option.none, Option.none, Option.none, Option.none, Option.none, Option.none⟩

/-- A parameter dictionary holding only `connection_type: postgresql`. -/
def pgOnlyParams : ConnectionParams :=
  ⟨Option.some ("postgresql"), Option.none, Option.none, Option.none,
   Option.none, Option.none⟩

/-- A two-column table mapping: a PII-flagged `name` column and a non-PII
`age` column. -/
def sampleTm : TableMappingRec :=
  ⟨"people", "people_masked",
   [⟨"name", "name", true, Option.some ("name")⟩,
    ⟨"age", "age", false, Option.none⟩]⟩

/-- The value a cell ends with, given the column mapping standing at its
position (if any): absent mapping or absent cell leave it untouched,
otherwise the per-cell step decides. -/
def maskedAt (lib : FakerLib) (world : Nat) (ocm : Option ColumnMapping)
    (oc : Option PyValue) : Option PyValue :=
  match ocm with
  | Option.some cm =>
      Option.map (fun cell => ((maskCellStep lib world cm cell).1).getD cell) oc
  | Option.none => oc

/-- A cell position `_mask_rows` is allowed to rewrite: a column mapping
exists there, it is PII-flagged with a category known to `pii_mapping`, and
the cell holds a non-blank value. -/
def canChange (cms : List ColumnMapping) (row : List PyValue) (j : Nat) : Prop :=
  ∃ cm cell, cms[j]? = Option.some cm ∧ row[j]? = Option.some cell ∧
    inMaskingBranch cm = true ∧ isBlankVal cell = false

/-! ## Theorems -/

/-- Every output of `hash_seed` is below the fixed modulus `10 ^ 8`. -/
theorem hash_seed_lt_mod (v : PyValue) : hash_seed v < 10 ^ 8 :=
  Nat.mod_lt _ (by norm_num)

/-- C10: `hash_seed` is total over every Python value — it always returns a
natural number below `10 ^ 8`, a `None` input hashes like the empty string,
and every non-string non-`None` input hashes like the string `str(v)`. -/
theorem hash_seed_total :
    (∀ v : PyValue, hash_seed v < 10 ^ 8) ∧
    hash_seed PyValue.none = hash_seed (PyValue.str "") ∧
    (∀ v : PyValue, pyIsStr v = false → v ≠ PyValue.none →
      hash_seed v = hash_seed (PyValue.str (pyStr v))) := by
  refine ⟨hash_seed_lt_mod, ?_, ?_⟩
  · unfold hash_seed
    rw [show hash_seed_text PyValue.none = hash_seed_text (PyValue.str "") from rfl]
  intro v hstr hnone
  have ht : hash_seed_text v = hash_seed_text (PyValue.str (pyStr v)) := by
    unfold hash_seed_text
    have h1 : (pyTruthy v && pyIsStr v) = false := by rw [hstr]; simp
    rw [h1]
    rw [if_neg (by simp : ¬ (false = true))]
    rw [if_neg hnone]
    by_cases h2 : pyStr v = ""
    · rw [h2]; rfl
    · have h3 : (pyTruthy (PyValue.str (pyStr v)) && pyIsStr (PyValue.str (pyStr v))) = true := by
        simp [pyTruthy, pyIsStr, h2]
      rw [h3, if_pos rfl]; rfl
  unfold hash_seed
  rw [ht]

/-- C10 witness: evaluated at the non-string input `0`. -/
theorem hash_seed_total_witness :
    hash_seed (PyValue.int 0) < 10 ^ 8 ∧
    hash_seed (PyValue.int 0) = hash_seed (PyValue.str (pyStr (PyValue.int 0))) :=
  ⟨hash_seed_total.1 (PyValue.int 0),
   hash_seed_total.2.2 (PyValue.int 0) (by decide) (by decide)⟩

/-- C8 counterexample: the image of `hash_seed` lies inside `[0, 10 ^ 8)`, so
its output range cannot span `2 ^ 64` values — the seed is far narrower than
64 bits. -/
theorem hash_seed_range_not_64bit :
    ¬ (2 ^ 64 ≤ (Set.range hash_seed).ncard) := by
  intro hle
  have hsub : Set.range hash_seed ⊆ Set.Iio (10 ^ 8) := by
    rintro x ⟨v, rfl⟩
    exact hash_seed_lt_mod v
  have h1 : (Set.range hash_seed).ncard ≤ (Set.Iio (10 ^ 8 : ℕ)).ncard :=
    Set.ncard_le_ncard hsub (Set.finite_Iio _)
  have h2 : (Set.Iio (10 ^ 8 : ℕ)).ncard = 10 ^ 8 := by
    rw [← Set.Nat.card_coe_set_eq, Nat.card_eq_fintype_card, Nat.card_fintypeIio]
  rw [h2] at h1
  have := le_trans hle h1
  norm_num at this

/-- C8 (amended): the masking seed is SHA-256 of the UTF-8 bytes of the string
form of the original value reduced modulo `10 ^ 8`, so every seed is below
`10 ^ 8` and the output range spans at most `10 ^ 8 < 2 ^ 64` values. -/
theorem hash_seed_range_narrow :
    (∀ v : PyValue, hash_seed v < 10 ^ 8) ∧
    (Set.range hash_seed).ncard ≤ 10 ^ 8 ∧ (10 : ℕ) ^ 8 < 2 ^ 64 := by
  refine ⟨hash_seed_lt_mod, ?_, by norm_num⟩
  have hsub : Set.range hash_seed ⊆ Set.Iio (10 ^ 8) := by
    rintro x ⟨v, rfl⟩
    exact hash_seed_lt_mod v
  have h2 : (Set.Iio (10 ^ 8 : ℕ)).ncard = 10 ^ 8 := by
    rw [← Set.Nat.card_coe_set_eq, Nat.card_eq_fintype_card, Nat.card_fintypeIio]
  calc (Set.range hash_seed).ncard ≤ (Set.Iio (10 ^ 8 : ℕ)).ncard :=
        Set.ncard_le_ncard hsub (Set.finite_Iio _)
    _ = 10 ^ 8 := h2

/-- C1: masking is a deterministic function of the original value and the
category — the lambda seeds a fresh generator instance from
`hash_seed(original value)` on every call, so two invocations in the same run
or in two runs with different ambient entropy produce identical output. -/
theorem masking_deterministic (lib : FakerLib) (world₁ world₂ : Nat)
    (a : String) (val : String) (_ha : a ∈ pii_mapping_keys) :
    pii_mapping_apply lib world₁ a val = pii_mapping_apply lib world₂ a val :=
  rfl

/-- C1 witness: the `email` category on the value `x`, in two runs whose
ambient entropy differs. -/
theorem masking_deterministic_witness :
    "email" ∈ pii_mapping_keys ∧
    pii_mapping_apply (constFakerLib (PyValue.str ("m"))) 0 "email" "x"
      = pii_mapping_apply (constFakerLib (PyValue.str ("m"))) 1 "email" "x" :=
  ⟨by decide, masking_deterministic (constFakerLib (PyValue.str ("m"))) 0 1 "email" "x" (by decide)⟩

/-- C4: a null cell and an empty-string cell pass through every column
mapping unmasked, with no warning — blank values are never replaced by an
invented synthetic value. -/
theorem blank_passthrough (lib : FakerLib) (world : Nat) (cm : ColumnMapping) :
    mask_cell lib world cm PyValue.none = (PyValue.none, []) ∧
    mask_cell lib world cm (PyValue.str "") = (PyValue.str "", []) := by
  have h1 : isBlankVal PyValue.none = true := by decide
  have h2 : isBlankVal (PyValue.str "") = true := by decide
  constructor <;>
    · unfold mask_cell maskCellStep
      first
        | rw [h1] | rw [h2]
      split <;> simp

/-- C6 counterexample: a column mapping flagged PII with a category outside
the known set is accepted unchanged by creation-time validation — nothing
rejects it as a configuration error. -/
theorem unknown_category_accepted_at_creation :
    ColumnMappingCreate_validate
        ⟨"ssn_text", "ssn_text", true, Option.some ("not_a_real_category")⟩
      = Except.ok ⟨"ssn_text", "ssn_text", true, Option.some ("not_a_real_category")⟩ ∧
    "not_a_real_category" ∉ PII_ATTRIBUTES ∧
    "not_a_real_category" ∉ pii_mapping_keys := by
  refine ⟨rfl, by decide, by decide⟩

/-- C6 (amended): creation-time validation only enforces non-empty column
names; the PII category is neither required when the flag is set nor checked
against the known set, and an unknown category surfaces at run time as the
column being silently left unmasked with no warning. -/
theorem category_validation_deferred (inp : ColumnMappingCreateInput)
    (lib : FakerLib) (world : Nat) (cm : ColumnMapping) (a : String) (cell : PyValue)
    (h1 : inp.source_column ≠ "") (h2 : inp.destination_column ≠ "")
    (ha : cm.pii_attribute = Option.some a)
    (hk : a ∉ pii_mapping_keys) :
    ColumnMappingCreate_validate inp
      = Except.ok ⟨inp.source_column, inp.destination_column, inp.is_pii, inp.pii_attribute⟩ ∧
    mask_cell lib world cm cell = (cell, []) := by
  have hs : ¬ (inp.source_column.length < 1) := by
    intro hlt
    have hdl : inp.source_column.data.length = inp.source_column.length := rfl
    exact h1 (String.ext (List.length_eq_zero.mp (by omega)))
  have hd : ¬ (inp.destination_column.length < 1) := by
    intro hlt
    have hdl : inp.destination_column.data.length = inp.destination_column.length := rfl
    exact h2 (String.ext (List.length_eq_zero.mp (by omega)))
  constructor
  · unfold ColumnMappingCreate_validate
    rw [if_neg hs, if_neg hd]
  · simp [mask_cell, maskCellStep, inMaskingBranch, ha, hk]

/-- C6 witness: a creation request and a column mapping both carrying the
unknown category `not_a_real_category`. -/
theorem category_validation_deferred_witness :
    ("ssn_text" : String) ≠ "" ∧
    (⟨"c", "c", true, Option.some ("not_a_real_category")⟩ : ColumnMapping).pii_attribute
      = Option.some ("not_a_real_category") ∧
    "not_a_real_category" ∉ pii_mapping_keys ∧
    (ColumnMappingCreate_validate
        ⟨"ssn_text", "ssn_text", true, Option.some ("not_a_real_category")⟩
      = Except.ok ⟨"ssn_text", "ssn_text", true, Option.some ("not_a_real_category")⟩ ∧
     mask_cell (constFakerLib (PyValue.str ("m"))) 0
        ⟨"c", "c", true, Option.some ("not_a_real_category")⟩ (PyValue.str ("v"))
      = (PyValue.str ("v"), [])) :=
  ⟨by decide, rfl, by decide,
   category_validation_deferred
     ⟨"ssn_text", "ssn_text", true, Option.some ("not_a_real_category")⟩
     (constFakerLib (PyValue.str ("m"))) 0
     ⟨"c", "c", true, Option.some ("not_a_real_category")⟩
     "not_a_real_category" (PyValue.str ("v"))
     (by decide) (by decide) rfl (by decide)⟩

/-- C7 counterexample: a parameter dictionary without the `connection_type`
key makes `test_connection` raise a `KeyError` past its boundary — the
subscript sits before the `try:` block. -/
theorem test_connection_keyerror_escapes :
    test_connection trivTestEnv emptyParams
      = Except.error ("KeyError: connection_type") := rfl

/-- C7 (amended): whenever the parameter dictionary contains the
`connection_type` key, `test_connection` returns a `(bool, message)` pair and
lets no exception escape — unsupported types, missing drivers, other missing
keys and connection failures are all turned into a `False` result. -/
theorem test_connection_total_given_type (env : TestConnEnv)
    (params : ConnectionParams) (ct : String)
    (h : params.connection_type = Option.some ct) :
    ∃ r : Bool × String, test_connection env params = Except.ok r := by
  unfold test_connection
  rw [h]
  dsimp only [dictGet]
  cases hinner : test_connection_inner env ct params with
  | ok r => exact ⟨r, rfl⟩
  | error e => exact ⟨(false, "Connection failed: " ++ e), rfl⟩

/-- C7 witness: probing with only `connection_type: postgresql` present. -/
theorem test_connection_total_witness :
    pgOnlyParams.connection_type = Option.some ("postgresql") ∧
    ∃ r : Bool × String, test_connection trivTestEnv pgOnlyParams = Except.ok r :=
  ⟨rfl, test_connection_total_given_type trivTestEnv pgOnlyParams "postgresql" rfl⟩

/-- C2 counterexample: with neither database driver installed,
`execute_workflow` raises before touching the execution record — the
exception escapes and the persisted write log is empty, so no FAILED record
exists. -/
theorem no_failed_record_without_drivers :
    execute_workflow envNoDrivers 1 1 (Option.some 1)
      = (Except.error noDriversMsg, []) := rfl

/-- C2 (amended): once the pre-try phase has produced an execution record and
provided the persistence layer accepts the update, every failure inside the
orchestrator's try block ends with a FAILED write (carrying the error message
and the failure log line) appended last, after which the exception
propagates. -/
theorem failed_write_on_inner_failure (env : OrchestratorEnv)
    (wid uid : Nat) (eid : Option Nat) (ex : ExecutionRec) (e : String)
    (hdrv : (env.pyodbc_available || env.psycopg2_available) = true)
    (hres : resolve_execution env eid = Except.ok ex)
    (hupd : env.update_ok = true)
    (herr : (execute_workflow env wid uid eid).1 = Except.error e) :
    ∃ pre logs, (execute_workflow env wid uid eid).2
      = pre ++ [ExecWrite.mk ex.id WStatus.failed (Option.some e) Option.none
          (logs ++ ["Workflow failed: " ++ e])] := by
  have hcond : (!env.pyodbc_available && !env.psycopg2_available) = false := by
    cases ha : env.pyodbc_available <;> cases hb : env.psycopg2_available <;> simp_all
  have hw : execute_workflow env wid uid eid
      = (match runTryBody env ex wid uid with
        | (writes, _, Option.none) => (Except.ok ex, writes)
        | (writes, logs, Option.some e') =>
            (Except.error e',
             if env.update_ok = true then
               writes ++ [ExecWrite.mk ex.id WStatus.failed (Option.some e')
                 Option.none (logs ++ ["Workflow failed: " ++ e'])]
             else writes)) := by
    unfold execute_workflow
    rw [hcond, if_neg (by simp : ¬ (false = true)), hres]
  rw [hupd] at hw
  rcases hr : runTryBody env ex wid uid with ⟨writes, logs, err⟩
  rw [hr] at hw
  cases err with
  | none =>
      rw [hw] at herr
      exact absurd herr (by simp)
  | some e' =>
      dsimp only at hw
      rw [if_pos rfl] at hw
      rw [hw] at herr ⊢
      have he : e' = e := by
        simpa using herr
      exact ⟨writes, logs, by rw [he]⟩

/-- C2 witness: pyodbc present, execution id resolvable, updates accepted,
workflow row missing — the failure happens inside the try block and the last
persisted write is the FAILED record. -/
theorem failed_write_on_inner_failure_witness :
    (envMissingWorkflow.pyodbc_available || envMissingWorkflow.psycopg2_available) = true ∧
    resolve_execution envMissingWorkflow (Option.some 5) = Except.ok ⟨7⟩ ∧
    envMissingWorkflow.update_ok = true ∧
    (execute_workflow envMissingWorkflow 1 1 (Option.some 5)).1
      = Except.error ("Workflow 1 not found") ∧
    ∃ pre logs, (execute_workflow envMissingWorkflow 1 1 (Option.some 5)).2
      = pre ++ [ExecWrite.mk 7 WStatus.failed (Option.some ("Workflow 1 not found"))
          Option.none (logs ++ ["Workflow failed: " ++ "Workflow 1 not found"])] :=
  ⟨rfl, rfl, rfl, rfl,
   failed_write_on_inner_failure envMissingWorkflow 1 1 (Option.some 5) ⟨7⟩
     ("Workflow 1 not found") rfl rfl rfl rfl⟩

/-- Indices produced by the `enumerate(columns)` comprehension never fall
below the starting counter. -/
theorem mem_identity_indices_from_le (identity_columns : List String) :
    ∀ (columns : List String) (i j : Nat),
      j ∈ identity_indices_from columns identity_columns i → i ≤ j := by
  intro columns
  induction columns with
  | nil => intro i j h; simp [identity_indices_from] at h
  | cons c rest ih =>
      intro i j h
      simp only [identity_indices_from] at h
      by_cases hc : identity_columns.contains c = true
      · rw [if_pos hc] at h
        rcases List.mem_cons.mp h with h1 | h2
        · omega
        · have := ih (i + 1) j h2; omega
      · rw [if_neg hc] at h
        have := ih (i + 1) j h
        omega

/-- The row comprehension only consults index membership at positions at or
beyond its counter. -/
theorem filtered_row_from_congr :
    ∀ (row : List PyValue) (idxs idxs' : List Nat) (i : Nat),
      (∀ j, i ≤ j → (j ∈ idxs ↔ j ∈ idxs')) →
      filtered_row_from row idxs i = filtered_row_from row idxs' i := by
  intro row
  induction row with
  | nil => intros; rfl
  | cons v rest ih =>
      intro idxs idxs' i h
      simp only [filtered_row_from]
      have h1 : idxs.contains i = idxs'.contains i := by
        by_cases hm : i ∈ idxs
        · have hm' := (h i (le_refl i)).mp hm
          rw [show idxs.contains i = true by simpa using hm,
              show idxs'.contains i = true by simpa using hm']
        · have hm' : i ∉ idxs' := fun hx => hm ((h i (le_refl i)).mpr hx)
          rw [show idxs.contains i = false by simpa using hm,
              show idxs'.contains i = false by simpa using hm']
      rw [h1]
      have hrec := ih idxs idxs' (i + 1) (fun j hj => h j (by omega))
      by_cases hb : idxs'.contains i = true
      · rw [if_pos hb, if_pos hb]
        exact hrec
      · rw [if_neg hb, if_neg hb, hrec]

/-- The row filtering of `_insert_masked_data_sync` keeps exactly the values
standing at non-identity positions of the declared column order. -/
theorem filtered_row_from_spec (identity_columns : List String) :
    ∀ (columns : List String) (row : List PyValue) (i : Nat),
      row.length = columns.length →
      filtered_row_from row (identity_indices_from columns identity_columns i) i
        = ((columns.zip row).filter
            (fun p => !(identity_columns.contains p.1))).map Prod.snd := by
  intro columns
  induction columns with
  | nil =>
      intro row i hlen
      have hr : row = [] := List.length_eq_zero.mp (by simpa using hlen)
      subst hr; rfl
  | cons c crest ih =>
      intro row i hlen
      cases row with
      | nil => simp at hlen
      | cons v rvest =>
          have hlen' : rvest.length = crest.length := by simpa using hlen
          simp only [identity_indices_from, List.zip_cons_cons]
          by_cases hc : identity_columns.contains c = true
          · rw [if_pos hc]
            simp only [filtered_row_from]
            rw [show ((i :: identity_indices_from crest identity_columns (i + 1)).contains i)
                = true by simp]
            rw [if_pos rfl]
            rw [filtered_row_from_congr rvest
              (i :: identity_indices_from crest identity_columns (i + 1))
              (identity_indices_from crest identity_columns (i + 1)) (i + 1)
              (fun j hj => by
                simp only [List.mem_cons]
                constructor
                · rintro (h1 | h2)
                  · omega
                  · exact h2
                · intro h2; exact Or.inr h2)]
            rw [ih rvest (i + 1) hlen']
            have hcm : c ∈ identity_columns := by simpa using hc
            rw [List.filter_cons_of_neg (by simp [hcm])]
          · rw [if_neg hc]
            simp only [filtered_row_from]
            have hhead : (identity_indices_from crest identity_columns (i + 1)).contains i
                = false := by
              by_contra hx
              have hmem : i ∈ identity_indices_from crest identity_columns (i + 1) := by
                have := Bool.of_not_eq_false hx
                simpa using this
              have := mem_identity_indices_from_le identity_columns crest (i + 1) i hmem
              omega
            rw [hhead]
            rw [if_neg (by simp)]
            rw [ih rvest (i + 1) hlen']
            have hcm : c ∉ identity_columns := by simpa using hc
            rw [List.filter_cons_of_pos (by simp [hcm])]
            rfl

/-- The insert column list keeps exactly the names standing at non-identity
positions of the declared column order. -/
theorem filtered_columns_spec (identity_columns : List String) :
    ∀ (columns : List String) (row : List PyValue),
      row.length = columns.length →
      filtered_columns columns identity_columns
        = ((columns.zip row).filter
            (fun p => !(identity_columns.contains p.1))).map Prod.fst := by
  intro columns
  induction columns with
  | nil => intro row _; rfl
  | cons c crest ih =>
      intro row hlen
      cases row with
      | nil => simp at hlen
      | cons v rvest =>
          have hlen' : rvest.length = crest.length := by simpa using hlen
          simp only [filtered_columns, List.zip_cons_cons, List.filter]
          by_cases hc : identity_columns.contains c = true
          · simp only [hc, Bool.not_true]
            exact ih rvest hlen'
          · simp only [Bool.not_eq_true] at hc
            simp only [hc, Bool.not_false, List.map_cons]
            exact congrArg (c :: ·) (ih rvest hlen')

/-- C3: for every destination page, the identity columns detected in the
destination are excluded both from the insert column list and from every
row's value tuple, and the values removed from a row are exactly those at the
index positions of the identity columns in the declared column order — the
kept names and kept values stay in positional correspondence, and the insert
never references an identity column. -/
theorem insert_never_references_identity (columns identity_columns : List String)
    (data : List (List PyValue))
    (hlen : ∀ row ∈ data, row.length = columns.length) :
    (∀ c ∈ (insert_filtering columns identity_columns data).1, c ∉ identity_columns) ∧
    (insert_filtering columns identity_columns data).2
      = data.map (fun row => filtered_row row (identity_indices columns identity_columns)) ∧
    ∀ row ∈ data,
      (insert_filtering columns identity_columns data).1
        = ((columns.zip row).filter
            (fun p => !(identity_columns.contains p.1))).map Prod.fst ∧
      filtered_row row (identity_indices columns identity_columns)
        = ((columns.zip row).filter
            (fun p => !(identity_columns.contains p.1))).map Prod.snd := by
  refine ⟨?_, rfl, ?_⟩
  · intro c hc
    have hmem := List.mem_filter.mp hc
    simpa using hmem.2
  · intro row hrow
    exact ⟨filtered_columns_spec identity_columns columns row (hlen row hrow),
           filtered_row_from_spec identity_columns columns row 0 (hlen row hrow)⟩

/-- C3 witness: a three-column table whose `id` column is an identity column,
with one data row. -/
theorem insert_never_references_identity_witness :
    (∀ row ∈ [[PyValue.int 1, PyValue.str ("Alice"), PyValue.str ("a@x")]],
      row.length = (["id", "name", "email"] : List String).length) ∧
    (∀ c ∈ (insert_filtering ["id", "name", "email"] ["id"]
        [[PyValue.int 1, PyValue.str ("Alice"), PyValue.str ("a@x")]]).1,
      c ∉ (["id"] : List String)) ∧
    (insert_filtering ["id", "name", "email"] ["id"]
        [[PyValue.int 1, PyValue.str ("Alice"), PyValue.str ("a@x")]]).2
      = [[PyValue.int 1, PyValue.str ("Alice"), PyValue.str ("a@x")]].map
          (fun row => filtered_row row (identity_indices ["id", "name", "email"] ["id"])) :=
  ⟨by decide,
   (insert_never_references_identity ["id", "name", "email"] ["id"]
     [[PyValue.int 1, PyValue.str ("Alice"), PyValue.str ("a@x")]] (by decide)).1,
   (insert_never_references_identity ["id", "name", "email"] ["id"]
     [[PyValue.int 1, PyValue.str ("Alice"), PyValue.str ("a@x")]] (by decide)).2.1⟩

/-- A column outside the masking branch never assigns and never logs. -/
theorem maskCellStep_not_branch (lib : FakerLib) (world : Nat) (cm : ColumnMapping)
    (cell : PyValue) (hb : inMaskingBranch cm = false) :
    maskCellStep lib world cm cell = (Option.none, []) := by
  unfold maskCellStep
  rw [hb]
  simp

/-- A blank cell is never assigned. -/
theorem maskCellStep_blank (lib : FakerLib) (world : Nat) (cm : ColumnMapping)
    (cell : PyValue) (hb : isBlankVal cell = true) :
    (maskCellStep lib world cm cell).1 = Option.none := by
  unfold maskCellStep
  by_cases hbr : inMaskingBranch cm = true
  · rw [if_pos hbr, if_pos hb]
  · rw [if_neg hbr]

/-- The per-column loop preserves the row length. -/
theorem maskRowAux_length (lib : FakerLib) (world : Nat) :
    ∀ (cms : List ColumnMapping) (i : Nat) (mrow : List PyValue) (logs : List String),
      (maskRowAux lib world cms i mrow logs).1.length = mrow.length := by
  intro cms
  induction cms with
  | nil => intros; rfl
  | cons cm rest ih =>
      intro i mrow logs
      simp only [maskRowAux]
      by_cases hb : inMaskingBranch cm = true
      · rw [if_pos hb]
        by_cases h : i < mrow.length
        · rw [dif_pos h]
          rcases hs : maskCellStep lib world cm mrow[i] with ⟨ov, w⟩
          cases ov with
          | some v =>
              dsimp only
              rw [ih (i + 1) (mrow.set i v) (logs ++ w)]
              exact List.length_set mrow i v
          | none => exact ih (i + 1) mrow (logs ++ w)
        · rw [dif_neg h]
          exact ih (i + 1) mrow (logs ++ [indexErrorWarning cm])
      · rw [if_neg hb]
        exact ih (i + 1) mrow logs

/-- Complete positional characterization of the per-column loop: the cell at
`j` ends as `maskedAt` of the mapping standing `j - i` positions into the
remaining mapping list (when the loop reaches position `j` at all) and of the
original cell. -/
theorem maskRowAux_getElem (lib : FakerLib) (world : Nat) :
    ∀ (cms : List ColumnMapping) (i : Nat) (mrow : List PyValue) (logs : List String) (j : Nat),
      (maskRowAux lib world cms i mrow logs).1[j]?
        = maskedAt lib world (if i ≤ j then cms[j - i]? else Option.none) mrow[j]? := by
  intro cms
  induction cms with
  | nil =>
      intro i mrow logs j
      have hnil : (if i ≤ j then ([] : List ColumnMapping)[j - i]? else Option.none)
          = Option.none := by split <;> simp
      rw [hnil]
      rfl
  | cons cm rest ih =>
      intro i mrow logs j
      simp only [maskRowAux]
      by_cases hb : inMaskingBranch cm = true
      · rw [if_pos hb]
        by_cases h : i < mrow.length
        · rw [dif_pos h]
          rcases hs : maskCellStep lib world cm mrow[i] with ⟨ov, w⟩
          cases ov with
          | some v =>
              dsimp only
              rw [ih (i + 1) (mrow.set i v) (logs ++ w) j]
              rcases Nat.lt_trichotomy j i with hj | hj | hj
              · rw [if_neg (by omega), if_neg (by omega)]
                rw [show (mrow.set i v)[j]? = mrow[j]? from List.getElem?_set_ne (by omega)]
              · subst hj
                rw [if_neg (by omega), if_pos (le_refl j)]
                rw [show j - j = 0 from by omega]
                rw [List.getElem?_cons_zero]
                rw [List.getElem?_set_eq_of_lt v h]
                rw [List.getElem?_eq_getElem h]
                dsimp only [maskedAt, Option.map_some']
                rw [hs]
                rfl
              · rw [if_pos (by omega), if_pos (by omega)]
                rw [show j - i = (j - (i + 1)) + 1 from by omega]
                rw [List.getElem?_cons_succ]
                rw [show (mrow.set i v)[j]? = mrow[j]? from List.getElem?_set_ne (by omega)]
          | none =>
              dsimp only
              rw [ih (i + 1) mrow (logs ++ w) j]
              rcases Nat.lt_trichotomy j i with hj | hj | hj
              · rw [if_neg (by omega), if_neg (by omega)]
              · subst hj
                rw [if_neg (by omega), if_pos (le_refl j)]
                rw [show j - j = 0 from by omega]
                rw [List.getElem?_cons_zero]
                rw [List.getElem?_eq_getElem h]
                dsimp only [maskedAt, Option.map_some']
                rw [hs]
                rfl
              · rw [if_pos (by omega), if_pos (by omega)]
                rw [show j - i = (j - (i + 1)) + 1 from by omega]
                rw [List.getElem?_cons_succ]
        · rw [dif_neg h]
          rw [ih (i + 1) mrow (logs ++ [indexErrorWarning cm]) j]
          rcases Nat.lt_trichotomy j i with hj | hj | hj
          · rw [if_neg (by omega), if_neg (by omega)]
          · subst hj
            rw [if_neg (by omega), if_pos (le_refl j)]
            rw [show j - j = 0 from by omega]
            rw [List.getElem?_cons_zero]
            rw [List.getElem?_eq_none (by omega)]
            rfl
          · rw [if_pos (by omega), if_pos (by omega)]
            rw [show j - i = (j - (i + 1)) + 1 from by omega]
            rw [List.getElem?_cons_succ]
      · rw [if_neg hb]
        rw [ih (i + 1) mrow logs j]
        rcases Nat.lt_trichotomy j i with hj | hj | hj
        · rw [if_neg (by omega), if_neg (by omega)]
        · subst hj
          rw [if_neg (by omega), if_pos (le_refl j)]
          rw [show j - j = 0 from by omega]
          rw [List.getElem?_cons_zero]
          cases hc : mrow[j]? with
          | none => rfl
          | some cell =>
              dsimp only [maskedAt, Option.map_some']
              rw [maskCellStep_not_branch lib world cm cell (by simpa using hb)]
              rfl
        · rw [if_pos (by omega), if_pos (by omega)]
          rw [show j - i = (j - (i + 1)) + 1 from by omega]
          rw [List.getElem?_cons_succ]

/-- `mask_row` at position `j`. -/
theorem mask_row_getElem (lib : FakerLib) (world : Nat) (tm : TableMappingRec)
    (row : List PyValue) (j : Nat) :
    (mask_row lib world tm row).1[j]?
      = maskedAt lib world tm.column_mappings[j]? row[j]? := by
  unfold mask_row
  rw [maskRowAux_getElem lib world tm.column_mappings 0 row [] j]
  rw [if_pos (Nat.zero_le j)]
  rw [show j - 0 = j from by omega]

/-- The masked output list is the per-row map of `mask_row`. -/
theorem mask_rows_fst (lib : FakerLib) (world : Nat) (tm : TableMappingRec) :
    ∀ (rows : List (List PyValue)) (acc : List (List PyValue)) (ws : List String),
      (rows.foldl
        (fun acc row =>
          let r := mask_row lib world tm row
          (acc.1 ++ [r.1], acc.2 ++ r.2))
        (acc, ws)).1
      = acc ++ rows.map (fun row => (mask_row lib world tm row).1) := by
  intro rows
  induction rows with
  | nil => intro acc ws; simp
  | cons row rest ih =>
      intro acc ws
      simp only [List.foldl_cons, List.map_cons]
      rw [ih]
      simp

/-- C9: `_mask_rows` returns exactly one output row per input row, each
output row is as long as its input row, and every position that is not a
non-blank cell of a PII-flagged column with a known category carries the
input value unchanged. -/
theorem mask_rows_frame (lib : FakerLib) (world : Nat) (tm : TableMappingRec)
    (rows : List (List PyValue)) :
    (mask_rows lib world tm rows).1.length = rows.length ∧
    ∀ (k : Nat) (row : List PyValue), rows[k]? = Option.some row →
      ∃ mrow : List PyValue, (mask_rows lib world tm rows).1[k]? = Option.some mrow ∧
        mrow.length = row.length ∧
        ∀ j, ¬ canChange tm.column_mappings row j → mrow[j]? = row[j]? := by
  have hfst : (mask_rows lib world tm rows).1
      = rows.map (fun row => (mask_row lib world tm row).1) := by
    unfold mask_rows
    exact mask_rows_fst lib world tm rows [] []
  constructor
  · rw [hfst, List.length_map]
  · intro k row hk
    refine ⟨(mask_row lib world tm row).1, ?_, ?_, ?_⟩
    · rw [hfst]
      rw [List.getElem?_map, hk]
      rfl
    · exact maskRowAux_length lib world tm.column_mappings 0 row []
    · intro j hnc
      rw [mask_row_getElem]
      cases hcm : tm.column_mappings[j]? with
      | none => rfl
      | some cm =>
          cases hc : row[j]? with
          | none => rfl
          | some cell =>
              dsimp only [maskedAt, Option.map_some']
              by_cases hbr : inMaskingBranch cm = true
              · by_cases hbl : isBlankVal cell = true
                · rw [maskCellStep_blank lib world cm cell hbl]
                  rfl
                · exact absurd ⟨cm, cell, hcm, hc, hbr, by simpa using hbl⟩ hnc
              · rw [maskCellStep_not_branch lib world cm cell (by simpa using hbr)]
                rfl

/-- C9 witness: one row under a mapping with one PII and one non-PII column. -/
theorem mask_rows_frame_witness :
    ([[PyValue.str ("Alice"), PyValue.int 30]] : List (List PyValue))[0]?
      = Option.some [PyValue.str ("Alice"), PyValue.int 30] ∧
    (mask_rows (constFakerLib (PyValue.str ("X"))) 0 sampleTm
        [[PyValue.str ("Alice"), PyValue.int 30]]).1.length = 1 ∧
    ∃ mrow : List PyValue,
      (mask_rows (constFakerLib (PyValue.str ("X"))) 0 sampleTm
          [[PyValue.str ("Alice"), PyValue.int 30]]).1[0]? = Option.some mrow ∧
      mrow.length = ([PyValue.str ("Alice"), PyValue.int 30] : List PyValue).length ∧
      ∀ j, ¬ canChange sampleTm.column_mappings [PyValue.str ("Alice"), PyValue.int 30] j →
        mrow[j]? = ([PyValue.str ("Alice"), PyValue.int 30] : List PyValue)[j]? :=
  ⟨rfl,
   (mask_rows_frame (constFakerLib (PyValue.str ("X"))) 0 sampleTm
     [[PyValue.str ("Alice"), PyValue.int 30]]).1,
   (mask_rows_frame (constFakerLib (PyValue.str ("X"))) 0 sampleTm
     [[PyValue.str ("Alice"), PyValue.int 30]]).2 0
     [PyValue.str ("Alice"), PyValue.int 30] rfl⟩

/-- C5: when the generator call for a non-blank cell of a PII column raises,
the per-cell handler leaves the cell unassigned and logs exactly one warning
naming the source column with the exception text, and `_mask_rows` still
produces one output row per input row — the failure aborts nothing. -/
theorem cell_failure_isolated (lib : FakerLib) (world : Nat) (cm : ColumnMapping)
    (cell : PyValue) (e : String)
    (hb : inMaskingBranch cm = true)
    (hnb : isBlankVal cell = false)
    (herr : pii_mapping_apply lib world (cm.pii_attribute.getD "") (pyStr cell)
      = Except.error e) :
    maskCellStep lib world cm cell
      = (Option.none, ["Failed to mask column " ++ cm.source_column ++ ": " ++ e]) ∧
    mask_cell lib world cm cell
      = (cell, ["Failed to mask column " ++ cm.source_column ++ ": " ++ e]) ∧
    ∀ (tm : TableMappingRec) (rows : List (List PyValue)),
      (mask_rows lib world tm rows).1.length = rows.length := by
  have hstep : maskCellStep lib world cm cell
      = (Option.none, ["Failed to mask column " ++ cm.source_column ++ ": " ++ e]) := by
    unfold maskCellStep
    rw [if_pos hb, if_neg (by simp [hnb]), herr]
  refine ⟨hstep, ?_, ?_⟩
  · unfold mask_cell
    rw [hstep]
    rfl
  · intro tm rows
    have hfst := mask_rows_fst lib world tm rows [] []
    unfold mask_rows
    rw [hfst]
    simp

/-- C5 witness: a generator that raises `boom` on the `email` category. -/
theorem cell_failure_isolated_witness :
    inMaskingBranch ⟨"email_col", "email_col", true, Option.some ("email")⟩ = true ∧
    isBlankVal (PyValue.str ("x")) = false ∧
    pii_mapping_apply (errFakerLib ("boom")) 0
        ((⟨"email_col", "email_col", true, Option.some ("email")⟩ : ColumnMapping).pii_attribute.getD "")
        (pyStr (PyValue.str ("x")))
      = Except.error ("boom") ∧
    maskCellStep (errFakerLib ("boom")) 0
        ⟨"email_col", "email_col", true, Option.some ("email")⟩ (PyValue.str ("x"))
      = (Option.none, ["Failed to mask column " ++ "email_col" ++ ": " ++ "boom"]) :=
  ⟨by decide, by decide, rfl,
   (cell_failure_isolated (errFakerLib ("boom")) 0
     ⟨"email_col", "email_col", true, Option.some ("email")⟩ (PyValue.str ("x")) "boom"
     (by decide) (by decide) rfl).1⟩

end PiiMasking
